import Mathlib

/-!
Verification development for the library-catalog service (src/src/main.py and
src/src/database.py): a shallow embedding of the request router, the request
validator, the domain operations and the schema manager, together with
theorems settling the frozen claims about them.

Modelling conventions:
- A JSON value is the inductive `Json`; a number with a fractional part is
  `Json.jfloat` carrying only its truthiness, since the handlers never use
  such a value beyond a truthiness test before failing.
- The relational store is `Store`: three lists of rows in insertion order,
  mirroring the three tables created by database.py.
- `Outcome` is what a request produces: `response` for send_json_response,
  `error` for send_error, and `exn` for an exception that the handler
  re-raises (both handler excepts and the do_POST except end in `raise`,
  main.py lines 359-362 and 744-747, so the exception escapes the handler).
- main.py line 161 rebinds `sqlite3.connect` to `instrumented_connect`
  (lines 146-159), a generator context manager whose `finally` calls
  `conn.close()` without `commit()`. With the default sqlite3 isolation
  level every INSERT or UPDATE opens an implicit transaction that such a
  close rolls back, so the table rows visible after a request are the rows
  visible before it; `runConn` models exactly this. The recorded transcript
  in the docstring of tests/test_integration.py shows the resulting
  failures (a 201 book creation followed by 404 Book not found).
-/

namespace LibSys

/-- A JSON value as produced by json.loads. `jfloat` stands for a Python
float; only its truthiness is ever inspected by the code under study. -/
inductive Json where
  | null
  | jbool (b : Bool)
  | jint (n : Int)
  | jfloat (isZero : Bool)
  | jstr (s : String)
  | jarr (elems : List Json)
  | jobj (fields : List (String × Json))

/-- Python truthiness of a JSON value (bool(x)). -/
def truthy : Json → Bool
  | .null => false
  | .jbool b => b
  | .jint n => n != 0
  | .jfloat isZero => !isZero
  | .jstr s => !s.data.isEmpty
  | .jarr elems => !elems.isEmpty
  | .jobj fields => !fields.isEmpty

/-- Python dict.get: the value stored under the key, or None when the key is
absent or the value is not a dict. -/
def jsonGet (v : Json) (key : String) : Json :=
  match v with
  | .jobj fields =>
    match fields.find? (fun p => decide (p.1 = key)) with
    | some p => p.2
    | none => .null
  | _ => .null

/-- isinstance(body, dict). -/
def isObj : Json → Bool
  | .jobj _ => true
  | _ => false

/-- Python str.isdigit restricted to ASCII: nonempty and all digits. -/
def isDigitStr (x : String) : Bool :=
  !x.data.isEmpty && x.data.all (·.isDigit)

/-- Numeric value of an all-digit string. -/
def digitsToNat (cs : List Char) : Nat :=
  cs.foldl (fun acc ch => acc * 10 + (ch.toNat - 48)) 0

/-- SQLite INTEGER affinity applied to an all-digit TEXT parameter compared
against an INTEGER column. -/
def idOfDigits (x : String) : Int :=
  Int.ofNat (digitsToNat x.data)

/-- The integer a validated identifier denotes when bound to SQL: a Python
int is itself, a bool is 0 or 1 (bool is a subclass of int), an all-digit
string is converted by INTEGER affinity. Other cases never reach SQL. -/
def sqlId : Json → Int
  | .jint n => n
  | .jbool b => if b then 1 else 0
  | .jstr x => idOfDigits x
  | _ => 0

/-- TEXT affinity of a parameter bound into a TEXT column: strings are kept,
ints and bools are converted by sqlite3 to their numeric text; any other
Python value is an unsupported parameter type and sqlite3 raises. -/
def sqlTextOf : Json → Option String
  | .jstr s => some s
  | .jint n => some (toString n)
  | .jbool b => some (if b then "1" else "0")
  | _ => none

/-- A row of the books table (database.py lines 59-66). is_borrowed is
stored as INTEGER 0/1; it is modelled as Bool. -/
structure Book where
  id : Int
  title : String
  author : String
  is_borrowed : Bool
deriving DecidableEq

/-- A row of the borrowers table (database.py lines 69-75). -/
structure Borrower where
  id : Int
  name : String
  email : String
deriving DecidableEq

/-- A row of the borrowed_books table (database.py lines 78-87). The INSERT
of handle_borrow_book never sets borrow_date, leaving it NULL, so it is
omitted from the model. -/
structure BorrowedBook where
  id : Int
  book_id : Int
  borrower_id : Int
deriving DecidableEq

/-- The visible contents of the three tables, rows in insertion order. -/
structure Store where
  books : List Book
  borrowers : List Borrower
  borrowed_books : List BorrowedBook
deriving DecidableEq

/-- The rowid SQLite assigns to a fresh row of a table whose INTEGER
PRIMARY KEY is not supplied: one more than the largest existing id (1 for
an empty table); this is also the lastrowid the handlers read back. -/
def nextRowId (ids : List Int) : Int :=
  ids.foldl max 0 + 1

/-- What a request produces: a JSON response (send_json_response), an error
page (send_error), or an exception re-raised out of the handler. -/
inductive Outcome where
  | response (status : Nat) (body : Json)
  | error (status : Nat) (message : String)
  | exn (message : String)

/-- The HTTP status of an outcome, none when an exception escaped and no
response was written. -/
def statusOf : Outcome → Option Nat
  | .response st _ => some st
  | .error st _ => some st
  | .exn _ => none

/-- Models `with sqlite3.connect(DATABASE_NAME) as conn:` after main.py
line 161 rebinds sqlite3.connect to instrumented_connect (lines 146-159):
the wrapper closes the connection without committing, so the implicit
transaction opened by any INSERT or UPDATE in the block is rolled back and
the store reverts to its state before the request. The outcome (already
sent over the socket inside the block) is kept. -/
def runConn (txn : Store → Outcome × Store) (s : Store) : Outcome × Store :=
  ((txn s).1, s)

/- ----------------------------------------------------------------- -/
/- database.py: the schema manager                                    -/
/- ----------------------------------------------------------------- -/

/-- A column declaration with its constraints. -/
structure ColumnDef where
  cname : String
  ctype : String
  notNull : Bool
  primaryKey : Bool
  uniqueCol : Bool
  dflt : Option String
deriving DecidableEq

/-- A FOREIGN KEY clause. -/
structure ForeignKeyDef where
  fromCol : String
  toTable : String
  toCol : String
deriving DecidableEq

/-- A CREATE TABLE statement body: columns and foreign keys. -/
structure TableDef where
  cols : List ColumnDef
  fks : List ForeignKeyDef
deriving DecidableEq

/-- The books table definition (database.py lines 59-66). -/
def booksTable : TableDef :=
  { cols := [⟨"id", "INTEGER", false, true, false, none⟩,
             ⟨"title", "TEXT", true, false, false, none⟩,
             ⟨"author", "TEXT", true, false, false, none⟩,
             ⟨"is_borrowed", "INTEGER", false, false, false, some "0"⟩],
    fks := [] }

/-- The borrowers table definition (database.py lines 69-75). -/
def borrowersTable : TableDef :=
  { cols := [⟨"id", "INTEGER", false, true, false, none⟩,
             ⟨"name", "TEXT", true, false, false, none⟩,
             ⟨"email", "TEXT", true, false, true, none⟩],
    fks := [] }

/-- The borrowed_books table definition (database.py lines 78-87). -/
def borrowedBooksTable : TableDef :=
  { cols := [⟨"id", "INTEGER", false, true, false, none⟩,
             ⟨"book_id", "INTEGER", false, false, false, none⟩,
             ⟨"borrower_id", "INTEGER", false, false, false, none⟩,
             ⟨"borrow_date", "TEXT", false, false, false, none⟩],
    fks := [⟨"book_id", "books", "id"⟩, ⟨"borrower_id", "borrowers", "id"⟩] }

/-- Schema-level state of the SQLite file: created tables (name and
definition), created index names, and the table rows. CREATE ... IF NOT
EXISTS statements are DDL, which sqlite3 runs outside the implicit
transaction, so their effect persists even under instrumented_connect. -/
structure DBState where
  tables : List (String × TableDef)
  indexes : List String
  store : Store

/-- CREATE TABLE IF NOT EXISTS: a no-op when a table of that name exists
(whatever its definition), otherwise records the new table. -/
def createTableIfNotExists (nm : String) (t : TableDef) (db : DBState) : DBState :=
  if db.tables.any (fun p => decide (p.1 = nm)) then db
  else { db with tables := db.tables ++ [(nm, t)] }

/-- CREATE INDEX IF NOT EXISTS. -/
def createIndexIfNotExists (nm : String) (db : DBState) : DBState :=
  if db.indexes.any (fun i => decide (i = nm)) then db
  else { db with indexes := db.indexes ++ [nm] }

/-- init_db (database.py lines 41-96): creates the three tables and the two
indexes if absent. The function catches every exception and returns
normally; none of these statements can fail on a well-formed database
file, so the model is total. -/
def init_db (db : DBState) : DBState :=
  createIndexIfNotExists "idx_borrowed_books_borrower_id"
    (createIndexIfNotExists "idx_borrowed_books_book_id"
      (createTableIfNotExists "borrowed_books" borrowedBooksTable
        (createTableIfNotExists "borrowers" borrowersTable
          (createTableIfNotExists "books" booksTable db))))

/- ----------------------------------------------------------------- -/
/- main.py: the handlers                                              -/
/- ----------------------------------------------------------------- -/

def BOOKS_PATH : String := "/books"
def BORROWERS_PATH : String := "/borrowers"
def BORROWED_PATH : String := "/borrowed-books"
def INVALID_JSON_ERROR : String := "Invalid JSON format"
def PATH_NOT_FOUND_ERROR : String := "Path not found"
def MAX_CONTENT_LENGTH : Nat := 1024 * 1024

/-- Body of handle_list_books (main.py lines 390-396): SELECT * FROM books,
rows as {id, title, author, is_borrowed}. -/
def handle_list_books_txn (s : Store) : Outcome × Store :=
  (.response 200 (.jarr (s.books.map (fun bk =>
    .jobj [("id", .jint bk.id), ("title", .jstr bk.title),
           ("author", .jstr bk.author), ("is_borrowed", .jbool bk.is_borrowed)]))), s)

/-- handle_list_books (main.py lines 367-401). -/
def handle_list_books (s : Store) : Outcome × Store :=
  runConn handle_list_books_txn s

/-- Body of handle_list_borrowers (main.py lines 425-431). -/
def handle_list_borrowers_txn (s : Store) : Outcome × Store :=
  (.response 200 (.jarr (s.borrowers.map (fun b =>
    .jobj [("id", .jint b.id), ("name", .jstr b.name), ("email", .jstr b.email)]))), s)

/-- handle_list_borrowers (main.py lines 403-436). -/
def handle_list_borrowers (s : Store) : Outcome × Store :=
  runConn handle_list_borrowers_txn s

/-- Body of handle_get_borrower (main.py lines 462-473): SELECT the borrower
by id; 200 with the row when found, otherwise send_error(400, "Borrower
not found"). The router only passes all-digit ids, which INTEGER affinity
converts for the comparison. -/
def handle_get_borrower_txn (borrower_id : String) (s : Store) : Outcome × Store :=
  match s.borrowers.find? (fun b => b.id == idOfDigits borrower_id) with
  | some b =>
    (.response 200 (.jobj [("id", .jint b.id), ("name", .jstr b.name),
                           ("email", .jstr b.email)]), s)
  | none => (.error 400 "Borrower not found", s)

/-- handle_get_borrower (main.py lines 438-478). -/
def handle_get_borrower (borrower_id : String) (s : Store) : Outcome × Store :=
  runConn (handle_get_borrower_txn borrower_id) s

/-- Body of handle_list_borrowed (main.py lines 501-513): inner join of
books and borrowed_books on book id, projected to {id, title, author},
one output row per matching borrowed_books row. -/
def handle_list_borrowed_txn (s : Store) : Outcome × Store :=
  (.response 200 (.jarr ((s.books.map (fun bk =>
    (s.borrowed_books.filter (fun r => r.book_id == bk.id)).map (fun _ =>
      Json.jobj [("id", .jint bk.id), ("title", .jstr bk.title),
                 ("author", .jstr bk.author)]))).flatten)), s)

/-- handle_list_borrowed (main.py lines 480-518). -/
def handle_list_borrowed (s : Store) : Outcome × Store :=
  runConn handle_list_borrowed_txn s

/-- Body of handle_borrowed_books (main.py lines 543-558): the same join
filtered by borrower_id; 404 when the result set is empty. -/
def handle_borrowed_books_txn (borrower_id : String) (s : Store) : Outcome × Store :=
  let rows := (s.books.map (fun bk =>
    (s.borrowed_books.filter (fun r =>
      r.book_id == bk.id && r.borrower_id == idOfDigits borrower_id)).map (fun _ =>
        Json.jobj [("id", .jint bk.id), ("title", .jstr bk.title),
                   ("author", .jstr bk.author)]))).flatten
  if rows.isEmpty then (.error 404 "No borrowed books found for this borrower", s)
  else (.response 200 (.jarr rows), s)

/-- handle_borrowed_books (main.py lines 519-563). -/
def handle_borrowed_books (borrower_id : String) (s : Store) : Outcome × Store :=
  runConn (handle_borrowed_books_txn borrower_id) s

/-- Body of handle_add_book (main.py lines 604-617): INSERT the new book
with is_borrowed false, read back lastrowid and answer 201 with the
created representation. lastrowid of a successful INSERT is always an
int, so the isinstance guard on main.py line 611 never fires and is not a
branch of the model. A non-str, non-int, non-bool field value is an
unsupported sqlite3 parameter type and raises. -/
def handle_add_book_txn (title author : Json) (s : Store) : Outcome × Store :=
  match sqlTextOf title, sqlTextOf author with
  | some t, some a =>
    let book_id := nextRowId (s.books.map (·.id))
    let s2 := { s with books := s.books ++ [⟨book_id, t, a, false⟩] }
    (.response 201 (.jobj [("id", .jint book_id), ("title", title),
                           ("author", author), ("is_borrowed", .jbool false)]), s2)
  | _, _ => (.exn "sqlite3.InterfaceError: unsupported parameter type", s)

/-- handle_add_book (main.py lines 565-622): falsy-check title and author,
then run the INSERT inside the instrumented connection. -/
def handle_add_book (body : Json) (s : Store) : Outcome × Store :=
  let title := jsonGet body "title"
  let author := jsonGet body "author"
  if !truthy title || !truthy author then
    (.error 400 "Title and author are required", s)
  else
    runConn (handle_add_book_txn title author) s

/-- Body of handle_create_borrower (main.py lines 661-669): INSERT the new
borrower; the UNIQUE constraint on email makes the INSERT raise
IntegrityError when the email already exists, and the except blocks of
the handler and of do_POST both re-raise it. -/
def handle_create_borrower_txn (name email : Json) (s : Store) : Outcome × Store :=
  match sqlTextOf name, sqlTextOf email with
  | some nm, some em =>
    if s.borrowers.any (fun b => decide (b.email = em)) then
      (.exn "sqlite3.IntegrityError: UNIQUE constraint failed: borrowers.email", s)
    else
      let borrower_id := nextRowId (s.borrowers.map (·.id))
      let s2 := { s with borrowers := s.borrowers ++ [⟨borrower_id, nm, em⟩] }
      (.response 201 (.jobj [("id", .jint borrower_id), ("name", name),
                             ("email", email)]), s2)
  | _, _ => (.exn "sqlite3.InterfaceError: unsupported parameter type", s)

/-- handle_create_borrower (main.py lines 624-674): falsy-check name and
email (lines 644-649, outside the connection), then INSERT. -/
def handle_create_borrower (body : Json) (s : Store) : Outcome × Store :=
  let name := jsonGet body "name"
  let email := jsonGet body "email"
  if !truthy name || !truthy email then
    (.error 400 "Name and email are required", s)
  else
    runConn (handle_create_borrower_txn name email) s

/-- The identifier-shape test of main.py lines 702-707:
`not isinstance(x, int) and not x.isdigit()`. isinstance short-circuits
for ints (Python bools included, bool being a subclass of int), str has
isdigit, and every other value lacks the isdigit attribute so the check
itself raises AttributeError — modelled as none. -/
def idCheck : Json → Option Bool
  | .jint _ => some true
  | .jbool _ => some true
  | .jstr x => some (isDigitStr x)
  | _ => none

/-- Body of handle_borrow_book (main.py lines 719-742): SELECT is_borrowed
by book id; 404 when no row, 404 when already borrowed; otherwise INSERT
the borrowing record (the enabled FOREIGN KEY constraint raises when the
borrower id references no row), UPDATE the book flag, and answer 201. -/
def handle_borrow_book_txn (borrower_id book_id : Json) (s : Store) : Outcome × Store :=
  match s.books.find? (fun bk => bk.id == sqlId book_id) with
  | none => (.error 404 "Book not found", s)
  | some bk =>
    if bk.is_borrowed then
      (.error 404 "Book is already borrowed", s)
    else if s.borrowers.any (fun b => b.id == sqlId borrower_id) then
      let rid := nextRowId (s.borrowed_books.map (·.id))
      let s2 := { s with
        borrowed_books := s.borrowed_books ++ [⟨rid, sqlId book_id, sqlId borrower_id⟩],
        books := s.books.map (fun b =>
          if b.id == sqlId book_id then { b with is_borrowed := true } else b) }
      (.response 201 (.jobj [("borrower_id", borrower_id), ("book_id", book_id)]), s2)
    else
      (.exn "sqlite3.IntegrityError: FOREIGN KEY constraint failed", s)

/-- handle_borrow_book (main.py lines 676-747): falsy-check both ids, run
the identifier-shape test on each, then the check-then-write sequence
inside the instrumented connection. -/
def handle_borrow_book (body : Json) (s : Store) : Outcome × Store :=
  let borrower_id := jsonGet body "borrower_id"
  let book_id := jsonGet body "book_id"
  if !truthy borrower_id || !truthy book_id then
    (.error 400 "Borrower ID and Book ID are required", s)
  else
    match idCheck borrower_id with
    | none => (.exn "AttributeError: no attribute isdigit", s)
    | some false => (.error 400 "Invalid borrower ID format", s)
    | some true =>
      match idCheck book_id with
      | none => (.exn "AttributeError: no attribute isdigit", s)
      | some false => (.error 400 "Invalid book ID format", s)
      | some true => runConn (handle_borrow_book_txn borrower_id book_id) s

/- ----------------------------------------------------------------- -/
/- main.py: the router                                                -/
/- ----------------------------------------------------------------- -/

/-- The path component of urlparse(self.path): the characters before the
first query or fragment delimiter. -/
def stripQuery (p : String) : String :=
  String.mk (p.data.takeWhile (fun ch => ch != '?' && ch != '#'))

/-- path.split(slash)[-1]: the characters after the last slash. -/
def lastSeg (p : String) : String :=
  String.mk ((p.data.reverse.takeWhile (fun ch => ch != '/')).reverse)

/-- do_GET (main.py lines 215-282): route on the parsed path; a path that
merely starts with a collection path has its trailing segment checked for
digits before the id handler runs. -/
def do_GET (raw_path : String) (s : Store) : Outcome × Store :=
  let path := stripQuery raw_path
  if path = BOOKS_PATH then handle_list_books s
  else if path = BORROWERS_PATH then handle_list_borrowers s
  else if path.data.take BORROWERS_PATH.data.length = BORROWERS_PATH.data then
    let borrower_id := lastSeg path
    if !isDigitStr borrower_id then (.error 400 "Invalid borrower ID format", s)
    else handle_get_borrower borrower_id s
  else if path = BORROWED_PATH then handle_list_borrowed s
  else if path.data.take BORROWED_PATH.data.length = BORROWED_PATH.data then
    let borrower_id := lastSeg path
    if !isDigitStr borrower_id then (.error 400 "Invalid borrower ID format", s)
    else handle_borrowed_books borrower_id s
  else (.error 400 PATH_NOT_FOUND_ERROR, s)

/-- do_POST (main.py lines 284-365). The request body is modelled by the
Content-Length header value and the result of json.loads on the raw
bytes (none when parsing raises). The body checks of lines 302-324 come
before any routing: a length of at most 2 bytes, a parse failure or a
non-dict parse all answer 400 Invalid JSON format, and a length over
MAX_CONTENT_LENGTH answers 413. Routing compares self.path directly
(no urlparse here) and falls back to 400 Path not found. -/
def do_POST (path : String) (content_length : Nat) (parsed : Option Json)
    (s : Store) : Outcome × Store :=
  if content_length ≤ 2 then (.error 400 INVALID_JSON_ERROR, s)
  else if content_length > MAX_CONTENT_LENGTH then
    (.error 413 "Request body too large", s)
  else
    match parsed with
    | none => (.error 400 INVALID_JSON_ERROR, s)
    | some body =>
      if !isObj body then (.error 400 INVALID_JSON_ERROR, s)
      else if path = BOOKS_PATH then
        if truthy (jsonGet body "title") && truthy (jsonGet body "author") then
          handle_add_book body s
        else if !truthy (jsonGet body "title") && truthy (jsonGet body "author") then
          (.error 400 "Invalid request body, missing Title", s)
        else if !truthy (jsonGet body "author") && truthy (jsonGet body "title") then
          (.error 400 "Invalid request body, missing Author", s)
        else (.error 400 "Invalid request body, no valid data provided", s)
      else if path = BORROWERS_PATH then
        if truthy (jsonGet body "name") && truthy (jsonGet body "email") then
          handle_create_borrower body s
        else if !truthy (jsonGet body "name") && truthy (jsonGet body "email") then
          (.error 400 "Invalid request body, missing Name", s)
        else if !truthy (jsonGet body "email") && truthy (jsonGet body "name") then
          (.error 400 "Invalid request body, missing Email", s)
        else (.error 400 "Invalid request body, no valid data provided", s)
      else if path = BORROWED_PATH then
        if truthy (jsonGet body "borrower_id") && truthy (jsonGet body "book_id") then
          handle_borrow_book body s
        else if !truthy (jsonGet body "borrower_id") && truthy (jsonGet body "book_id") then
          (.error 400 "Invalid request body, missing Borrower ID", s)
        else if !truthy (jsonGet body "book_id") && truthy (jsonGet body "borrower_id") then
          (.error 400 "Invalid request body, missing Book ID", s)
        else (.error 400 "Invalid request body, no valid data provided", s)
      else (.error 400 PATH_NOT_FOUND_ERROR, s)

/- ----------------------------------------------------------------- -/
/- Fixtures and helper lemmas                                         -/
/- ----------------------------------------------------------------- -/

/-- An empty store, the state right after init_db on a fresh file. -/
def stEmpty : Store := ⟨[], [], []⟩

/-- A store with one available book and two borrowers. -/
def stOneAvail : Store :=
  { books := [⟨1, "T", "A", false⟩],
    borrowers := [⟨1, "N", "n@x"⟩, ⟨2, "M", "m@x"⟩],
    borrowed_books := [] }

/-- A store whose single book is already borrowed by borrower 1. -/
def stOneBorrowed : Store :=
  { books := [⟨1, "T", "A", true⟩],
    borrowers := [⟨1, "N", "n@x"⟩, ⟨2, "M", "m@x"⟩],
    borrowed_books := [⟨1, 1, 1⟩] }

/-- The POST /borrowed-books body {borrower_id, book_id}. -/
def mkBorrowBody (b k : Json) : Json :=
  .jobj [("borrower_id", b), ("book_id", k)]

theorem createTableIfNotExists_store (nm : String) (t : TableDef) (db : DBState) :
    (createTableIfNotExists nm t db).store = db.store := by
  unfold createTableIfNotExists; split <;> rfl

theorem createIndexIfNotExists_store (nm : String) (db : DBState) :
    (createIndexIfNotExists nm db).store = db.store := by
  unfold createIndexIfNotExists; split <;> rfl

theorem createIndexIfNotExists_tables (nm : String) (db : DBState) :
    (createIndexIfNotExists nm db).tables = db.tables := by
  unfold createIndexIfNotExists; split <;> rfl

theorem tableMem_create (nm : String) (t : TableDef) (db : DBState) :
    (createTableIfNotExists nm t db).tables.any (fun p => decide (p.1 = nm)) = true := by
  unfold createTableIfNotExists; split
  · assumption
  · simp [List.any_append]

theorem tableMem_mono (nm nm2 : String) (t : TableDef) (db : DBState)
    (h : db.tables.any (fun p => decide (p.1 = nm2)) = true) :
    (createTableIfNotExists nm t db).tables.any (fun p => decide (p.1 = nm2)) = true := by
  unfold createTableIfNotExists; split
  · exact h
  · simp [List.any_append]; left; simpa using h

theorem createTable_noop (nm : String) (t : TableDef) (db : DBState)
    (h : db.tables.any (fun p => decide (p.1 = nm)) = true) :
    createTableIfNotExists nm t db = db := by
  unfold createTableIfNotExists; rw [if_pos h]

theorem indexMem_create (nm : String) (db : DBState) :
    (createIndexIfNotExists nm db).indexes.any (fun i => decide (i = nm)) = true := by
  unfold createIndexIfNotExists; split
  · assumption
  · simp [List.any_append]

theorem indexMem_mono (nm nm2 : String) (db : DBState)
    (h : db.indexes.any (fun i => decide (i = nm2)) = true) :
    (createIndexIfNotExists nm db).indexes.any (fun i => decide (i = nm2)) = true := by
  unfold createIndexIfNotExists; split
  · exact h
  · simp [List.any_append]; left; simpa using h

theorem indexMem_createTable (nm nm2 : String) (t : TableDef) (db : DBState)
    (h : db.indexes.any (fun i => decide (i = nm2)) = true) :
    (createTableIfNotExists nm t db).indexes.any (fun i => decide (i = nm2)) = true := by
  unfold createTableIfNotExists; split
  · exact h
  · exact h

theorem createIndex_noop (nm : String) (db : DBState)
    (h : db.indexes.any (fun i => decide (i = nm)) = true) :
    createIndexIfNotExists nm db = db := by
  unfold createIndexIfNotExists; rw [if_pos h]

/- ----------------------------------------------------------------- -/
/- Claims                                                             -/
/- ----------------------------------------------------------------- -/

/-- C10: init_db is idempotent. A second call on an already-initialized
store raises no error (the model of init_db is total, mirroring the
CREATE ... IF NOT EXISTS statements, none of which can fail, and the
catch-all except blocks of database.py lines 93-96), changes nothing —
in particular it leaves every row of books, borrowers and borrowed_books
untouched (init_db never reads or writes rows at all) — and leaves the
schema unchanged; the third conjunct exhibits that schema: NOT NULL on
required fields, UNIQUE on borrower email, and the two foreign keys of
borrowed_books. -/
theorem init_db_idempotent (db : DBState) :
    init_db (init_db db) = init_db db
    ∧ (init_db db).store = db.store
    ∧ (init_db ⟨[], [], db.store⟩).tables
        = [("books", booksTable), ("borrowers", borrowersTable),
           ("borrowed_books", borrowedBooksTable)] := by
  refine ⟨?_, ?_, rfl⟩
  · have hbooks : (init_db db).tables.any (fun p => decide (p.1 = "books")) = true := by
      unfold init_db
      rw [createIndexIfNotExists_tables, createIndexIfNotExists_tables]
      exact tableMem_mono _ _ _ _ (tableMem_mono _ _ _ _ (tableMem_create _ _ _))
    have hborrowers : (init_db db).tables.any (fun p => decide (p.1 = "borrowers")) = true := by
      unfold init_db
      rw [createIndexIfNotExists_tables, createIndexIfNotExists_tables]
      exact tableMem_mono _ _ _ _ (tableMem_create _ _ _)
    have hbb : (init_db db).tables.any (fun p => decide (p.1 = "borrowed_books")) = true := by
      unfold init_db
      rw [createIndexIfNotExists_tables, createIndexIfNotExists_tables]
      exact tableMem_create _ _ _
    have hidx1 : (init_db db).indexes.any
        (fun i => decide (i = "idx_borrowed_books_book_id")) = true := by
      unfold init_db
      exact indexMem_mono _ _ _ (indexMem_create _ _)
    have hidx2 : (init_db db).indexes.any
        (fun i => decide (i = "idx_borrowed_books_borrower_id")) = true := by
      unfold init_db
      exact indexMem_create _ _
    conv_lhs => rw [init_db]
    rw [createTable_noop _ _ _ hbooks, createTable_noop _ _ _ hborrowers,
        createTable_noop _ _ _ hbb, createIndex_noop _ _ hidx1,
        createIndex_noop _ _ hidx2]
  · unfold init_db
    rw [createIndexIfNotExists_store, createIndexIfNotExists_store,
        createTableIfNotExists_store, createTableIfNotExists_store,
        createTableIfNotExists_store]

/-- C10, witnessed at a concrete database state: a second init_db on an
initialized store with one book row changes nothing. -/
theorem init_db_idempotent_witness :
    init_db (init_db ⟨[], [], stOneAvail⟩) = init_db ⟨[], [], stOneAvail⟩
    ∧ (init_db ⟨[], [], stOneAvail⟩).store = stOneAvail :=
  ⟨(init_db_idempotent ⟨[], [], stOneAvail⟩).1,
   (init_db_idempotent ⟨[], [], stOneAvail⟩).2.1⟩

/-- C1: a borrow-book request on an existing available book answers 201
with {borrower_id, book_id} and performs both writes inside the
transaction, but the instrumented connection closes without commit, so
neither write survives the request: the store afterwards is the store
before, contradicting the claim that the record insert and the flag
update are committed. The error paths do hold: a missing book answers
404 Book not found and an already borrowed book answers 404 Book is
already borrowed, in both cases with the store unchanged. -/
theorem borrow_book_writes_not_committed :
    (handle_borrow_book (mkBorrowBody (.jint 1) (.jint 1)) stOneAvail).1
      = .response 201 (.jobj [("borrower_id", .jint 1), ("book_id", .jint 1)])
    ∧ (handle_borrow_book_txn (.jint 1) (.jint 1) stOneAvail).2.borrowed_books
      = [⟨1, 1, 1⟩]
    ∧ (handle_borrow_book_txn (.jint 1) (.jint 1) stOneAvail).2.books
      = [⟨1, "T", "A", true⟩]
    ∧ (handle_borrow_book (mkBorrowBody (.jint 1) (.jint 1)) stOneAvail).2 = stOneAvail
    ∧ handle_borrow_book (mkBorrowBody (.jint 1) (.jint 999)) stOneAvail
      = (.error 404 "Book not found", stOneAvail)
    ∧ handle_borrow_book (mkBorrowBody (.jint 2) (.jint 1)) stOneBorrowed
      = (.error 404 "Book is already borrowed", stOneBorrowed) := by
  exact ⟨rfl, rfl, rfl, rfl, rfl, rfl⟩

/-- C2: add-book answers 201 with a fresh positive id and the row exists
inside the transaction, but the insert is rolled back when the
instrumented connection closes without commit, so the following
list-books answers the previous (here empty) list: the inserted row does
not persist and is not visible to the subsequent read, contradicting the
claim (and the expectation of test_full_workflow, whose recorded
transcript in the tests own docstring shows this very failure). -/
theorem add_book_insert_lost :
    (do_POST "/books" 40
        (some (.jobj [("title", .jstr "A"), ("author", .jstr "B")])) stEmpty).1
      = .response 201 (.jobj [("id", .jint 1), ("title", .jstr "A"),
          ("author", .jstr "B"), ("is_borrowed", .jbool false)])
    ∧ (handle_add_book_txn (.jstr "A") (.jstr "B") stEmpty).2.books
      = [⟨1, "A", "B", false⟩]
    ∧ (do_POST "/books" 40
        (some (.jobj [("title", .jstr "A"), ("author", .jstr "B")])) stEmpty).2
      = stEmpty
    ∧ (do_GET "/books"
        (do_POST "/books" 40
          (some (.jobj [("title", .jstr "A"), ("author", .jstr "B")])) stEmpty).2).1
      = .response 200 (.jarr []) := by
  exact ⟨rfl, rfl, rfl, rfl⟩

/-- C3: with one available book and two borrow requests for it from
different borrowers, both requests answer 201 — the first transaction
is rolled back at connection close, so the second request still sees the
book as available — and the final state holds no BorrowingRecord with
is_borrowed still false. This contradicts the claim (exactly one 201,
final state one record and is_borrowed true) and the code contradicts
its own test_concurrent_borrowing, which expects the second response to
fail. The serialized schedule shown is one legal schedule of the two
concurrent calls. -/
theorem double_borrow_both_return_201 :
    statusOf (do_POST "/borrowed-books" 40
        (some (mkBorrowBody (.jint 1) (.jint 1))) stOneAvail).1 = some 201
    ∧ statusOf (do_POST "/borrowed-books" 40
        (some (mkBorrowBody (.jint 2) (.jint 1)))
        (do_POST "/borrowed-books" 40
          (some (mkBorrowBody (.jint 1) (.jint 1))) stOneAvail).2).1 = some 201
    ∧ (do_POST "/borrowed-books" 40
        (some (mkBorrowBody (.jint 2) (.jint 1)))
        (do_POST "/borrowed-books" 40
          (some (mkBorrowBody (.jint 1) (.jint 1))) stOneAvail).2).2.borrowed_books
      = []
    ∧ (do_POST "/borrowed-books" 40
        (some (mkBorrowBody (.jint 2) (.jint 1)))
        (do_POST "/borrowed-books" 40
          (some (mkBorrowBody (.jint 1) (.jint 1))) stOneAvail).2).2.books
      = [⟨1, "T", "A", false⟩] := by
  exact ⟨rfl, rfl, rfl, rfl⟩

/-- Helper: handle_borrow_book on the two-field body, with the dict lookups
resolved. -/
theorem handle_borrow_book_eq (b k : Json) (s : Store) :
    handle_borrow_book (mkBorrowBody b k) s =
      if !truthy b || !truthy k then
        (.error 400 "Borrower ID and Book ID are required", s)
      else
        match idCheck b with
        | none => (.exn "AttributeError: no attribute isdigit", s)
        | some false => (.error 400 "Invalid borrower ID format", s)
        | some true =>
          match idCheck k with
          | none => (.exn "AttributeError: no attribute isdigit", s)
          | some false => (.error 400 "Invalid book ID format", s)
          | some true => runConn (handle_borrow_book_txn b k) s := rfl

/-- C4 counterexample: the claim says a truthy borrower_id that is not
positive-integer-shaped — for example a negative integer or an array —
is answered 400 Invalid borrower ID format without touching the store.
Instead, borrower_id = -1 passes the isinstance(int) arm of the check
and the request proceeds to the store (here answering 404 for the absent
book 999), and an array borrower_id makes the check itself raise an
uncaught AttributeError rather than send any response. -/
theorem borrow_invalid_id_shapes_not_rejected :
    handle_borrow_book (mkBorrowBody (.jint (-1)) (.jint 999)) stOneAvail
      = (.error 404 "Book not found", stOneAvail)
    ∧ (handle_borrow_book (mkBorrowBody (.jint (-1)) (.jint 999)) stOneAvail).1
      ≠ .error 400 "Invalid borrower ID format"
    ∧ handle_borrow_book (mkBorrowBody (.jarr [.jint 1]) (.jint 1)) stOneAvail
      = (.exn "AttributeError: no attribute isdigit", stOneAvail) := by
  refine ⟨rfl, ?_, rfl⟩
  intro h
  have h2 : Outcome.error 404 "Book not found"
      = Outcome.error 400 "Invalid borrower ID format" := h
  rw [Outcome.error.injEq] at h2
  exact absurd h2.1 (by decide)

/-- C4 amended: with both fields truthy, the identifier check accepts any
native integer (negative ones included, bools included) and any all-digit
string, letting the request proceed to the store; a truthy non-digit
string is answered 400 Invalid borrower ID format (respectively Invalid
book ID format for the second field); and any other truthy value, such
as a nonempty array, raises an uncaught AttributeError, producing no
response at all. -/
theorem borrow_id_validation_amended :
    (∀ (n m : Int) (s : Store), n ≠ 0 → m ≠ 0 →
      handle_borrow_book (mkBorrowBody (.jint n) (.jint m)) s
        = runConn (handle_borrow_book_txn (.jint n) (.jint m)) s)
    ∧ (∀ (x y : String) (s : Store), isDigitStr x = true → isDigitStr y = true →
      handle_borrow_book (mkBorrowBody (.jstr x) (.jstr y)) s
        = runConn (handle_borrow_book_txn (.jstr x) (.jstr y)) s)
    ∧ (∀ (x : String) (k : Json) (s : Store),
      x.data.isEmpty = false → isDigitStr x = false → truthy k = true →
      handle_borrow_book (mkBorrowBody (.jstr x) k) s
        = (.error 400 "Invalid borrower ID format", s))
    ∧ (∀ (n : Int) (y : String) (s : Store),
      n ≠ 0 → y.data.isEmpty = false → isDigitStr y = false →
      handle_borrow_book (mkBorrowBody (.jint n) (.jstr y)) s
        = (.error 400 "Invalid book ID format", s))
    ∧ (∀ (elems : List Json) (k : Json) (s : Store),
      elems.isEmpty = false → truthy k = true →
      handle_borrow_book (mkBorrowBody (.jarr elems) k) s
        = (.exn "AttributeError: no attribute isdigit", s)) := by
  refine ⟨?_, ?_, ?_, ?_, ?_⟩
  · intro n m s hn hm
    have h1 : truthy (Json.jint n) = true := by simp [truthy, hn]
    have h2 : truthy (Json.jint m) = true := by simp [truthy, hm]
    rw [handle_borrow_book_eq, h1, h2]
    simp [idCheck]
  · intro x y s hx hy
    have hx0 := hx
    have hy0 := hy
    unfold isDigitStr at hx0 hy0
    simp only [Bool.and_eq_true, Bool.not_eq_eq_eq_not, Bool.not_true] at hx0 hy0
    have hx1 : truthy (Json.jstr x) = true := by simp [truthy, hx0.1]
    have hy1 : truthy (Json.jstr y) = true := by simp [truthy, hy0.1]
    rw [handle_borrow_book_eq, hx1, hy1]
    simp [idCheck, hx, hy]
  · intro x k s hx hdig hk
    have ht : truthy (Json.jstr x) = true := by simp [truthy, hx]
    rw [handle_borrow_book_eq, ht, hk]
    simp [idCheck, hdig]
  · intro n y s hn hy hdig
    have h1 : truthy (Json.jint n) = true := by simp [truthy, hn]
    have h2 : truthy (Json.jstr y) = true := by simp [truthy, hy]
    rw [handle_borrow_book_eq, h1, h2]
    simp [idCheck, hdig]
  · intro elems k s he hk
    have ht : truthy (Json.jarr elems) = true := by simp [truthy, he]
    rw [handle_borrow_book_eq, ht, hk]
    simp [idCheck]

/-- C4 amended, witnessed at concrete inputs: borrower_id -1 proceeds to
the store, borrower_id "abc" is answered the 400 format error, an array
borrower_id raises. -/
theorem borrow_id_validation_amended_witness :
    handle_borrow_book (mkBorrowBody (.jint (-1)) (.jint 999)) stEmpty
      = runConn (handle_borrow_book_txn (.jint (-1)) (.jint 999)) stEmpty
    ∧ handle_borrow_book (mkBorrowBody (.jstr "abc") (.jint 1)) stEmpty
      = (.error 400 "Invalid borrower ID format", stEmpty)
    ∧ handle_borrow_book (mkBorrowBody (.jarr [.jint 1]) (.jint 1)) stEmpty
      = (.exn "AttributeError: no attribute isdigit", stEmpty) :=
  ⟨borrow_id_validation_amended.1 (-1) 999 stEmpty (by decide) (by decide),
   borrow_id_validation_amended.2.2.1 "abc" (.jint 1) stEmpty (by decide)
     (by decide) (by decide),
   borrow_id_validation_amended.2.2.2.2 [.jint 1] (.jint 1) stEmpty (by simp)
     (by decide)⟩

/-- C5 counterexample: the claim says a GET for an absent borrower fails
with status 404; handle_get_borrower instead calls send_error(400,
"Borrower not found") (main.py line 473), so the status is 400. -/
theorem get_absent_borrower_status_400 :
    do_GET "/borrowers/7" stOneAvail = (.error 400 "Borrower not found", stOneAvail)
    ∧ statusOf (do_GET "/borrowers/7" stOneAvail).1 ≠ some 404 := by
  refine ⟨rfl, ?_⟩
  intro h
  have h2 : (some 400 : Option Nat) = some 404 := h
  exact absurd h2 (by decide)

/-- C5 amended: for a GET whose path extends the borrowers collection path
(and carries no query or fragment), a non-digit trailing segment is
answered 400 Invalid borrower ID format by the router before any handler
runs; an all-digit segment naming an existing borrower is answered 200
with that borrower as {id, name, email}; and an all-digit segment naming
no borrower is answered 400 Borrower not found (not 404). The store is
returned unchanged in all three cases. -/
theorem get_borrower_route_amended (path seg : String) (s : Store)
    (hq : stripQuery path = path)
    (hne : path ≠ BORROWERS_PATH)
    (hpre : List.take BORROWERS_PATH.length path.data = BORROWERS_PATH.data)
    (hseg : lastSeg path = seg) :
    (isDigitStr seg = false →
      do_GET path s = (.error 400 "Invalid borrower ID format", s))
    ∧ (∀ b, isDigitStr seg = true →
        s.borrowers.find? (fun r => r.id == idOfDigits seg) = some b →
        do_GET path s = (.response 200 (.jobj [("id", .jint b.id),
          ("name", .jstr b.name), ("email", .jstr b.email)]), s))
    ∧ (isDigitStr seg = true →
        s.borrowers.find? (fun r => r.id == idOfDigits seg) = none →
        do_GET path s = (.error 400 "Borrower not found", s)) := by
  have hnb : path ≠ BOOKS_PATH := by
    intro h; subst h
    exact absurd hpre (by decide)
  refine ⟨?_, ?_, ?_⟩
  · intro hd
    simp [do_GET, hq, hnb, hne, hpre, hseg, hd]
  · intro b hd hfind
    simp [do_GET, hq, hnb, hne, hpre, hseg, hd, handle_get_borrower, runConn,
          handle_get_borrower_txn, hfind]
  · intro hd hfind
    simp [do_GET, hq, hnb, hne, hpre, hseg, hd, handle_get_borrower, runConn,
          handle_get_borrower_txn, hfind]

/-- C5 amended, witnessed: GET /borrowers/2 on the two-borrower store
answers 200 with borrower 2. -/
theorem get_borrower_route_amended_witness :
    stripQuery "/borrowers/2" = "/borrowers/2"
    ∧ isDigitStr "2" = true
    ∧ do_GET "/borrowers/2" stOneAvail
      = (.response 200 (.jobj [("id", .jint 2), ("name", .jstr "M"),
          ("email", .jstr "m@x")]), stOneAvail) :=
  ⟨rfl, rfl,
   (get_borrower_route_amended "/borrowers/2" "2" stOneAvail rfl (by decide)
     (by decide) rfl).2.1 ⟨2, "M", "m@x"⟩ rfl rfl⟩

/-- C6 counterexample: a create-borrower request whose email equals an
existing borrowers email makes the INSERT raise IntegrityError, and both
the handler except block (main.py lines 671-674) and the do_POST except
block (lines 359-362) re-raise it: the exception escapes the handler and
no JSON error response is produced (statusOf is none), contradicting the
claim that the violation is caught at the operation boundary and
converted to a JSON error response. -/
theorem duplicate_email_exception_escapes :
    do_POST "/borrowers" 40
        (some (.jobj [("name", .jstr "B"), ("email", .jstr "n@x")])) stOneAvail
      = (.exn "sqlite3.IntegrityError: UNIQUE constraint failed: borrowers.email",
         stOneAvail)
    ∧ statusOf (do_POST "/borrowers" 40
        (some (.jobj [("name", .jstr "B"), ("email", .jstr "n@x")])) stOneAvail).1
      = none := ⟨rfl, rfl⟩

/-- C6 amended: for every create-borrower request with truthy name and an
email equal to an existing borrowers email, the uniqueness violation is
raised as IntegrityError and re-raised by the handler and by do_POST —
it escapes to the HTTP server framework and no JSON error response is
written — while no second row is inserted and the first borrower remains
queryable: the store after the request equals the store before it. -/
theorem duplicate_email_amended (cl : Nat) (nm em : String) (s : Store) (b : Borrower)
    (h2 : 2 < cl) (hmax : cl ≤ MAX_CONTENT_LENGTH)
    (hnm : nm.data.isEmpty = false) (hem : em.data.isEmpty = false)
    (hb : b ∈ s.borrowers) (hbe : b.email = em) :
    do_POST BORROWERS_PATH cl
        (some (.jobj [("name", .jstr nm), ("email", .jstr em)])) s
      = (.exn "sqlite3.IntegrityError: UNIQUE constraint failed: borrowers.email",
         s) := by
  have hA : ¬ cl ≤ 2 := by omega
  have hB : ¬ cl > MAX_CONTENT_LENGTH := by omega
  have hany : s.borrowers.any (fun r => decide (r.email = em)) = true := by
    rw [List.any_eq_true]
    exact ⟨b, hb, by simp [hbe]⟩
  simp [do_POST, hA, hB, jsonGet, truthy, hnm, hem, isObj,
        BOOKS_PATH, BORROWERS_PATH, BORROWED_PATH,
        handle_create_borrower, runConn, handle_create_borrower_txn,
        sqlTextOf, hany]

/-- C6 amended, witnessed: the concrete duplicate-email request on the
two-borrower store, followed by the first borrower still being served
by GET /borrowers/1 on the unchanged store. -/
theorem duplicate_email_amended_witness :
    do_POST BORROWERS_PATH 40
        (some (.jobj [("name", .jstr "B"), ("email", .jstr "n@x")])) stOneAvail
      = (.exn "sqlite3.IntegrityError: UNIQUE constraint failed: borrowers.email",
         stOneAvail)
    ∧ (do_GET "/borrowers/1" stOneAvail).1
      = .response 200 (.jobj [("id", .jint 1), ("name", .jstr "N"),
          ("email", .jstr "n@x")]) :=
  ⟨duplicate_email_amended 40 "B" "n@x" stOneAvail ⟨1, "N", "n@x"⟩
     (by decide) (by decide) rfl rfl (by decide) rfl,
   rfl⟩

/-- C7 counterexample: the claim says an object body with both required
fields absent is answered the generic 400 no-valid-data error; for the
empty object the serialized body is two bytes long, so do_POST raises
at the Content-Length check (main.py lines 307-308) and answers 400
Invalid JSON format instead — as the repository test suite itself
expects (test_main.py scenario 4). -/
theorem post_books_empty_object_generic_error :
    do_POST "/books" 2 (some (.jobj [])) stEmpty
      = (.error 400 "Invalid JSON format", stEmpty)
    ∧ (do_POST "/books" 2 (some (.jobj [])) stEmpty).1
      ≠ .error 400 "Invalid request body, no valid data provided" := by
  refine ⟨rfl, ?_⟩
  intro h
  have h2 : Outcome.error 400 "Invalid JSON format"
      = Outcome.error 400 "Invalid request body, no valid data provided" := h
  rw [Outcome.error.injEq] at h2
  exact absurd h2.2 (by decide)

/-- C7 amended: for every POST to /books, /borrowers or /borrowed-books
whose body is a JSON object of raw length greater than 2 bytes (the
empty object {} serializes to exactly 2 bytes and is rejected earlier as
Invalid JSON format) and at most the 1 MiB ceiling: when exactly one of
the two required fields is truthy the response is the 400 error naming
the missing field, and when both are falsy the response is the generic
400 no-valid-data error; presence is falsy-based. -/
theorem post_missing_field_amended (cl : Nat) (body : Json) (s : Store)
    (h2 : 2 < cl) (hmax : cl ≤ MAX_CONTENT_LENGTH) (hobj : isObj body = true) :
    (truthy (jsonGet body "title") = true → truthy (jsonGet body "author") = false →
      do_POST BOOKS_PATH cl (some body) s
        = (.error 400 "Invalid request body, missing Author", s))
    ∧ (truthy (jsonGet body "title") = false → truthy (jsonGet body "author") = true →
      do_POST BOOKS_PATH cl (some body) s
        = (.error 400 "Invalid request body, missing Title", s))
    ∧ (truthy (jsonGet body "title") = false → truthy (jsonGet body "author") = false →
      do_POST BOOKS_PATH cl (some body) s
        = (.error 400 "Invalid request body, no valid data provided", s))
    ∧ (truthy (jsonGet body "name") = true → truthy (jsonGet body "email") = false →
      do_POST BORROWERS_PATH cl (some body) s
        = (.error 400 "Invalid request body, missing Email", s))
    ∧ (truthy (jsonGet body "name") = false → truthy (jsonGet body "email") = true →
      do_POST BORROWERS_PATH cl (some body) s
        = (.error 400 "Invalid request body, missing Name", s))
    ∧ (truthy (jsonGet body "name") = false → truthy (jsonGet body "email") = false →
      do_POST BORROWERS_PATH cl (some body) s
        = (.error 400 "Invalid request body, no valid data provided", s))
    ∧ (truthy (jsonGet body "borrower_id") = true →
       truthy (jsonGet body "book_id") = false →
      do_POST BORROWED_PATH cl (some body) s
        = (.error 400 "Invalid request body, missing Book ID", s))
    ∧ (truthy (jsonGet body "borrower_id") = false →
       truthy (jsonGet body "book_id") = true →
      do_POST BORROWED_PATH cl (some body) s
        = (.error 400 "Invalid request body, missing Borrower ID", s))
    ∧ (truthy (jsonGet body "borrower_id") = false →
       truthy (jsonGet body "book_id") = false →
      do_POST BORROWED_PATH cl (some body) s
        = (.error 400 "Invalid request body, no valid data provided", s)) := by
  have hA : ¬ cl ≤ 2 := by omega
  have hB : ¬ cl > MAX_CONTENT_LENGTH := by omega
  refine ⟨?_, ?_, ?_, ?_, ?_, ?_, ?_, ?_, ?_⟩ <;>
    (intro ha hb;
     simp [do_POST, hA, hB, hobj, ha, hb, BOOKS_PATH, BORROWERS_PATH, BORROWED_PATH])

/-- C7 amended, witnessed: the spec scenario POST /books with body
{"title": "X"} answers 400 missing Author. -/
theorem post_missing_field_amended_witness :
    truthy (jsonGet (.jobj [("title", .jstr "X")]) "title") = true
    ∧ truthy (jsonGet (.jobj [("title", .jstr "X")]) "author") = false
    ∧ do_POST BOOKS_PATH 14 (some (.jobj [("title", .jstr "X")])) stEmpty
      = (.error 400 "Invalid request body, missing Author", stEmpty) :=
  ⟨rfl, rfl,
   (post_missing_field_amended 14 (.jobj [("title", .jstr "X")]) stEmpty
     (by decide) (by decide) rfl).1 rfl rfl⟩

/-- C8 counterexample: the claim covers every POST body that is not
parseable as JSON, but a body longer than the 1 MiB ceiling is answered
413 Request body too large (main.py lines 309-311) even when it is not
parseable, not 400 Invalid JSON format. -/
theorem oversized_unparseable_body_413 :
    do_POST "/books" (MAX_CONTENT_LENGTH + 1) none stEmpty
      = (.error 413 "Request body too large", stEmpty)
    ∧ statusOf (do_POST "/books" (MAX_CONTENT_LENGTH + 1) none stEmpty).1
      ≠ some 400 := by
  refine ⟨rfl, ?_⟩
  intro h
  have h2 : (some 413 : Option Nat) = some 400 := h
  exact absurd h2 (by decide)

/-- C8 amended: for every POST to any path whose Content-Length does not
exceed the 1 MiB ceiling, a body that is absent or trivial in length
(Content-Length at most 2 bytes, which includes the empty object), not
parseable as JSON, or parsed to a non-object is answered 400 Invalid
JSON format before any routing decision (the result does not depend on
the path) and before any store access (the store is returned unchanged,
so no write occurs). -/
theorem post_invalid_json_amended (path : String) (cl : Nat) (parsed : Option Json)
    (s : Store) (hmax : cl ≤ MAX_CONTENT_LENGTH)
    (h : cl ≤ 2 ∨ parsed = none ∨ ∀ j, parsed = some j → isObj j = false) :
    do_POST path cl parsed s = (.error 400 INVALID_JSON_ERROR, s) := by
  by_cases hA : cl ≤ 2
  · simp [do_POST, hA]
  · have hB : ¬ cl > MAX_CONTENT_LENGTH := by omega
    rcases h with h | h | h
    · exact absurd h hA
    · simp [do_POST, hA, hB, h]
    · rcases hp : parsed with _ | j
      · simp [do_POST, hA, hB]
      · have hj := h j hp
        simp [do_POST, hA, hB, hp, hj]

/-- C8 amended, witnessed: an unparseable 10-byte body on an arbitrary
path. -/
theorem post_invalid_json_amended_witness :
    (10 : Nat) ≤ MAX_CONTENT_LENGTH
    ∧ do_POST "/books" 10 none stEmpty = (.error 400 INVALID_JSON_ERROR, stEmpty) :=
  ⟨by decide,
   post_invalid_json_amended "/books" 10 none stEmpty (by decide) (Or.inr (Or.inl rfl))⟩

/-- C9 counterexample: the GET path /borrowersabc matches none of the
recognized routes, yet the server answers 400 Invalid borrower ID format
(the path merely starts with /borrowers, so the router treats its last
segment as a borrower id), not the claimed Path not found error. -/
theorem unmatched_prefix_path_not_path_not_found :
    do_GET "/borrowersabc" stEmpty
      = (.error 400 "Invalid borrower ID format", stEmpty)
    ∧ (do_GET "/borrowersabc" stEmpty).1 ≠ .error 400 PATH_NOT_FOUND_ERROR := by
  refine ⟨rfl, ?_⟩
  intro h
  have h2 : Outcome.error 400 "Invalid borrower ID format"
      = Outcome.error 400 PATH_NOT_FOUND_ERROR := h
  rw [Outcome.error.injEq] at h2
  exact absurd h2.2 (by decide)

/-- C9 amended: a GET whose query-free path is not /books and does not
even start with /borrowers or /borrowed-books is answered 400 Path not
found with the store unchanged and no handler invoked (paths that start
with one of those prefixes without matching a route are instead answered
400 Invalid borrower ID format, or reach the id handler when their last
segment is all digits); a POST whose body is a JSON object of raw length
in (2, 1 MiB] and whose path is none of the three collection paths is
answered 400 Path not found with the store unchanged. -/
theorem unmatched_path_amended :
    (∀ (path : String) (s : Store),
      stripQuery path = path →
      path ≠ BOOKS_PATH →
      List.take BORROWERS_PATH.length path.data ≠ BORROWERS_PATH.data →
      List.take BORROWED_PATH.length path.data ≠ BORROWED_PATH.data →
      do_GET path s = (.error 400 PATH_NOT_FOUND_ERROR, s))
    ∧ (∀ (path : String) (cl : Nat) (body : Json) (s : Store),
      2 < cl → cl ≤ MAX_CONTENT_LENGTH → isObj body = true →
      path ≠ BOOKS_PATH → path ≠ BORROWERS_PATH → path ≠ BORROWED_PATH →
      do_POST path cl (some body) s = (.error 400 PATH_NOT_FOUND_ERROR, s)) := by
  constructor
  · intro path s hq h1 h2 h3
    have hb1 : path ≠ BORROWERS_PATH := by
      intro h; subst h; exact h2 (by decide)
    have hb2 : path ≠ BORROWED_PATH := by
      intro h; subst h; exact h3 (by decide)
    simp [do_GET, hq, h1, hb1, h2, hb2, h3]
  · intro path cl body s hcl hmax hobj hp1 hp2 hp3
    have hA : ¬ cl ≤ 2 := by omega
    have hB : ¬ cl > MAX_CONTENT_LENGTH := by omega
    simp [do_POST, hA, hB, hobj, hp1, hp2, hp3]

/-- C9 amended, witnessed: GET /nope and POST /invalid-path both answer
400 Path not found. -/
theorem unmatched_path_amended_witness :
    do_GET "/nope" stEmpty = (.error 400 PATH_NOT_FOUND_ERROR, stEmpty)
    ∧ do_POST "/invalid-path" 40 (some (.jobj [("a", .jint 1)])) stEmpty
      = (.error 400 PATH_NOT_FOUND_ERROR, stEmpty) :=
  ⟨unmatched_path_amended.1 "/nope" stEmpty rfl (by decide) (by decide) (by decide),
   unmatched_path_amended.2 "/invalid-path" 40 (.jobj [("a", .jint 1)]) stEmpty
     (by decide) (by decide) rfl (by decide) (by decide) (by decide)⟩

end LibSys
